import Mathlib

/-!
Verification of the canon consistency engine of questfoundry-py: the
EntityRegistry, the TimelineManager and the ConflictDetector.  The engine
modules `questfoundry.state.entity_registry`, `questfoundry.state.timeline`
and `questfoundry.state.conflict_detection` are exercised by the test suite
(`tests/state/...`) but their implementation files are not part of the
source tree available here, so every definition below is modelled from the
specification, with the concrete behaviour pinned by the repository's tests
(exact error messages, report shapes, rule matches).
-/

/-- Modelled from the spec: the engine modules raise every failure as a
Python `ValueError` distinguished only by its message text (the tests match
`pytest.raises(ValueError, match=...)`); a single-constructor error type
mirrors that uniform exception surface. -/
inductive QFError where
  | valueError (msg : String)
deriving DecidableEq

/-- Modelled from the spec: the closed enumeration of entity types
CHARACTER, PLACE, FACTION, ITEM. -/
inductive EntityType where
  | character
  | place
  | faction
  | item
deriving DecidableEq

/-- Modelled from the spec: a world entity record with name, type, role,
description, provenance source and the immutability flag. -/
structure Entity where
  name : String
  entity_type : EntityType
  role : String
  description : String
  source : String
  immutable : Bool
deriving DecidableEq

/-- Modelled from the spec: entity construction validates that the name is
non-empty, failing with the message "Entity name cannot be empty". -/
def Entity.make (name : String) (entity_type : EntityType) (role : String)
    (description : String) (source : String) (immutable : Bool) :
    Except QFError Entity :=
  if name = "" then .error (.valueError "Entity name cannot be empty")
  else .ok ⟨name, entity_type, role, description, source, immutable⟩

/-- Modelled from the spec: the in-memory entity store, keyed by name, kept
in insertion order. -/
structure EntityRegistry where
  entities : List Entity
deriving DecidableEq

/-- Modelled from the spec: lookup by name, returning the stored entity or
none. -/
def EntityRegistry.get_by_name (r : EntityRegistry) (nm : String) :
    Option Entity :=
  r.entities.find? (fun x => x.name == nm)

/-- Modelled from the spec: all stored entities of the given type, in
insertion order. -/
def EntityRegistry.get_by_type (r : EntityRegistry) (t : EntityType) :
    List Entity :=
  r.entities.filter (fun x => x.entity_type == t)

/-- Modelled from the spec: all stored entities whose immutability flag
equals the given flag. -/
def EntityRegistry.get_by_immutability (r : EntityRegistry) (flag : Bool) :
    List Entity :=
  r.entities.filter (fun x => x.immutable == flag)

/-- Modelled from the spec: number of stored entities. -/
def EntityRegistry.count (r : EntityRegistry) : Nat :=
  r.entities.length

/-- Modelled from the spec: `create` fails with "Entity already exists"
when an entity with the same name is already stored (uniqueness is on name
alone), otherwise appends the entity.  The returned pair carries the result
and the registry state afterwards (the state is unchanged on error, which
models the Python exception leaving the object untouched). -/
def EntityRegistry.create (r : EntityRegistry) (e : Entity) :
    Except QFError Entity × EntityRegistry :=
  match r.get_by_name e.name with
  | some _ => (.error (.valueError "Entity already exists"), r)
  | none => (.ok e, ⟨r.entities ++ [e]⟩)

/-- Modelled from the spec: the optional fields an `update` call may
supply; unsupplied fields are left unchanged. -/
structure EntityPatch where
  role : Option String
  description : Option String
  source : Option String
deriving DecidableEq

/-- Modelled from the spec: apply the supplied fields of a patch to an
entity, leaving the others unchanged. -/
def Entity.applyPatch (e : Entity) (p : EntityPatch) : Entity :=
  { e with
    role := p.role.getD e.role
    description := p.description.getD e.description
    source := p.source.getD e.source }

/-- Modelled from the spec: `update` looks up by name, fails with "Entity
not found" if absent, fails with "Cannot update immutable entity" if the
stored entity is immutable, and otherwise applies only the supplied fields.
The `entity_type` argument is part of the Python signature but the lookup
key is the name alone. -/
def EntityRegistry.update (r : EntityRegistry) (nm : String)
    (et : EntityType) (p : EntityPatch) :
    Except QFError Entity × EntityRegistry :=
  match r.get_by_name nm with
  | none => (.error (.valueError "Entity not found"), r)
  | some s =>
    if s.immutable = true then
      (.error (.valueError "Cannot update immutable entity"), r)
    else
      let s' := s.applyPatch p
      (.ok s', ⟨r.entities.map (fun x => if x.name == nm then s' else x)⟩)

/-- Modelled from the spec: `delete` returns false when the name is absent,
fails with "Cannot delete immutable entity" when the stored entity is
immutable, and otherwise removes the entity and returns true. -/
def EntityRegistry.delete (r : EntityRegistry) (nm : String)
    (et : EntityType) : Except QFError Bool × EntityRegistry :=
  match r.get_by_name nm with
  | none => (.ok false, r)
  | some s =>
    if s.immutable = true then
      (.error (.valueError "Cannot delete immutable entity"), r)
    else
      (.ok true, ⟨r.entities.filter (fun x => !(x.name == nm))⟩)

/-- Modelled from the spec: the merge report counting added, updated and
conflicting records. -/
structure MergeReport where
  added : Nat
  updated : Nat
  conflicts : Nat
deriving DecidableEq

/-- Modelled from the spec: the per-record merge decision, generic in the
record key and immutability projections so EntityRegistry.merge and
TimelineManager.merge share the identical algorithm the spec describes:
absent key is added; immutable import over mutable stored overwrites
(immutable provenance wins) and counts as updated; two differing immutable
records count as a conflict and leave the store unchanged; two mutable
records overwrite only when deduplicate is true. -/
def mergeStep {α : Type} [DecidableEq α] (key : α → String)
    (imm : α → Bool) (dedup : Bool) (acc : MergeReport × List α) (e : α) :
    MergeReport × List α :=
  match acc.2.find? (fun x => key x == key e) with
  | none =>
    (⟨acc.1.added + 1, acc.1.updated, acc.1.conflicts⟩, acc.2 ++ [e])
  | some s =>
    if imm s = false ∧ imm e = true then
      (⟨acc.1.added, acc.1.updated + 1, acc.1.conflicts⟩,
        acc.2.map (fun x => if key x == key e then e else x))
    else if imm s = true ∧ imm e = true ∧ ¬s = e then
      (⟨acc.1.added, acc.1.updated, acc.1.conflicts + 1⟩, acc.2)
    else if imm s = false ∧ imm e = false ∧ dedup = true then
      (⟨acc.1.added, acc.1.updated + 1, acc.1.conflicts⟩,
        acc.2.map (fun x => if key x == key e then e else x))
    else (acc.1, acc.2)

/-- Modelled from the spec: the fold underlying the entity merge. -/
def entityMergeFold (r : EntityRegistry) (imported : List Entity)
    (dedup : Bool) : MergeReport × List Entity :=
  imported.foldl (mergeStep Entity.name Entity.immutable dedup)
    (⟨0, 0, 0⟩, r.entities)

/-- Modelled from the spec: merge a batch of imported entities into the
registry, applying each record independently in input order and returning
the added/updated/conflicts report. -/
def EntityRegistry.merge (r : EntityRegistry) (imported : List Entity)
    (dedup : Bool) : MergeReport × EntityRegistry :=
  ((entityMergeFold r imported dedup).1,
    ⟨(entityMergeFold r imported dedup).2⟩)

/-- Modelled from the spec: the pluralized display name of an entity type,
used as the key of `count_by_type`. -/
def EntityType.plural : EntityType → String
  | .character => "characters"
  | .place => "places"
  | .faction => "factions"
  | .item => "items"

/-- Modelled from the spec: entity counts keyed by pluralized type name. -/
def EntityRegistry.count_by_type (r : EntityRegistry) :
    List (String × Nat) :=
  [EntityType.character, EntityType.place, EntityType.faction,
    EntityType.item].map
    (fun t => (t.plural, (r.get_by_type t).length))

/-- Modelled from the spec: a timeline anchor record.  Baseline anchors use
`year`, extension anchors use `offset` relative to T0. -/
structure TimelineAnchor where
  anchor_id : String
  event : String
  year : Option Int
  offset : Option Int
  description : String
  source : String
  immutable : Bool
deriving DecidableEq

/-- Modelled from the spec: a baseline anchor id is the letter T followed
by one or more digits, e.g. T0 or T12. -/
def isBaselineId (s : String) : Bool :=
  match s.data with
  | 'T' :: rest => !rest.isEmpty && rest.all Char.isDigit
  | _ => false

/-- Modelled from the spec: an extension anchor id is T, digits, a dash and
a non-empty upper-case label, e.g. T3-REVOLT. -/
def isExtensionId (s : String) : Bool :=
  match s.data with
  | 'T' :: rest =>
    let ds := rest.takeWhile Char.isDigit
    match rest.dropWhile Char.isDigit with
    | '-' :: label =>
      !ds.isEmpty && !label.isEmpty && label.all Char.isUpper
    | _ => false
  | _ => false

/-- Modelled from the spec: an anchor id is valid when it matches the
baseline or the extension pattern. -/
def isValidAnchorId (s : String) : Bool :=
  isBaselineId s || isExtensionId s

/-- Modelled from the spec: the numeric index of a baseline anchor id (the
digits after the leading T), used to order the baseline sequence. -/
def baselineNum (s : String) : Nat :=
  (s.data.drop 1).foldl (fun n c => n * 10 + (c.toNat - 48)) 0

/-- Modelled from the spec: the ordered in-memory anchor store. -/
structure TimelineManager where
  anchors : List TimelineAnchor
deriving DecidableEq

/-- Modelled from the spec: lookup of an anchor by id. -/
def TimelineManager.get_anchor (tm : TimelineManager) (aid : String) :
    Option TimelineAnchor :=
  tm.anchors.find? (fun a => a.anchor_id == aid)

/-- Modelled from the spec: number of stored anchors. -/
def TimelineManager.count (tm : TimelineManager) : Nat :=
  tm.anchors.length

/-- Modelled from the spec: the stored anchors whose id has no dash suffix,
in insertion order. -/
def TimelineManager.get_baseline_anchors (tm : TimelineManager) :
    List TimelineAnchor :=
  tm.anchors.filter (fun a => isBaselineId a.anchor_id)

/-- Modelled from the spec: the stored anchors whose id has a dash suffix,
in insertion order. -/
def TimelineManager.get_extension_anchors (tm : TimelineManager) :
    List TimelineAnchor :=
  tm.anchors.filter (fun a => isExtensionId a.anchor_id)

/-- Modelled from the spec: `add_anchor` validates the id format first
(failing with "Invalid anchor_id format"), then uniqueness (failing with
"Anchor <id> already exists"), then inserts at the end. -/
def TimelineManager.add_anchor (tm : TimelineManager) (aid : String)
    (event : String) (year : Option Int) (offset : Option Int)
    (description : String) (source : String) (immutable : Bool) :
    Except QFError TimelineAnchor × TimelineManager :=
  if isValidAnchorId aid = false then
    (.error (.valueError "Invalid anchor_id format"), tm)
  else
    match tm.get_anchor aid with
    | some _ =>
      (.error (.valueError ("Anchor " ++ aid ++ " already exists")), tm)
    | none =>
      let a : TimelineAnchor :=
        ⟨aid, event, year, offset, description, source, immutable⟩
      (.ok a, ⟨tm.anchors ++ [a]⟩)

/-- Modelled from the spec: the optional fields an `update_anchor` call may
supply. -/
structure AnchorPatch where
  event : Option String
  year : Option Int
  offset : Option Int
  description : Option String
deriving DecidableEq

/-- Modelled from the spec: apply the supplied fields of a patch to an
anchor, leaving the others unchanged. -/
def TimelineAnchor.applyPatch (a : TimelineAnchor) (p : AnchorPatch) :
    TimelineAnchor :=
  { a with
    event := p.event.getD a.event
    year := match p.year with | some y => some y | none => a.year
    offset := match p.offset with | some o => some o | none => a.offset
    description := p.description.getD a.description }

/-- Modelled from the spec: `update_anchor` mirrors the entity update with
the message "Cannot update immutable anchor". -/
def TimelineManager.update_anchor (tm : TimelineManager) (aid : String)
    (p : AnchorPatch) : Except QFError TimelineAnchor × TimelineManager :=
  match tm.get_anchor aid with
  | none => (.error (.valueError "Anchor not found"), tm)
  | some a =>
    if a.immutable = true then
      (.error (.valueError "Cannot update immutable anchor"), tm)
    else
      let a' := a.applyPatch p
      (.ok a',
        ⟨tm.anchors.map (fun x => if x.anchor_id == aid then a' else x)⟩)

/-- Modelled from the spec: `delete_anchor` mirrors the entity delete with
the message "Cannot delete immutable anchor". -/
def TimelineManager.delete_anchor (tm : TimelineManager) (aid : String) :
    Except QFError Bool × TimelineManager :=
  match tm.get_anchor aid with
  | none => (.ok false, tm)
  | some a =>
    if a.immutable = true then
      (.error (.valueError "Cannot delete immutable anchor"), tm)
    else
      (.ok true, ⟨tm.anchors.filter (fun x => !(x.anchor_id == aid))⟩)

/-- Modelled from the spec: the fold underlying the anchor merge, the
identical precedence algorithm as the entity merge. -/
def anchorMergeFold (tm : TimelineManager)
    (imported : List TimelineAnchor) (dedup : Bool) :
    MergeReport × List TimelineAnchor :=
  imported.foldl
    (mergeStep TimelineAnchor.anchor_id TimelineAnchor.immutable dedup)
    (⟨0, 0, 0⟩, tm.anchors)

/-- Modelled from the spec: merge a batch of imported anchors, applied
independently in input order, keyed by anchor_id. -/
def TimelineManager.merge (tm : TimelineManager)
    (imported : List TimelineAnchor) (dedup : Bool) :
    MergeReport × TimelineManager :=
  ((anchorMergeFold tm imported dedup).1,
    ⟨(anchorMergeFold tm imported dedup).2⟩)

/-- Modelled from the spec: the chronology error emitted when a baseline
anchor's year is not after the year of a baseline anchor that precedes it
in the id order. -/
def chronologyOrderMsg (a b : TimelineAnchor) : String :=
  b.anchor_id ++ (" year must be after " ++ a.anchor_id)

/-- Modelled from the spec: `validate_chronology` returns human-readable
error strings instead of raising.  A missing T0 yields an error containing
"T0" and "missing"; a baseline pair whose years are not strictly
increasing along the id order yields an error naming the offending anchor
and containing "after". -/
def TimelineManager.validate_chronology (tm : TimelineManager) :
    List String :=
  let missing :=
    if (tm.get_anchor "T0").isSome then []
    else ["Baseline anchor T0 is missing"]
  let baselines := tm.get_baseline_anchors
  let pairs := baselines.flatMap (fun a => baselines.map (fun b => (a, b)))
  let orderErrs := pairs.filterMap
    (fun p =>
      match p.1.year, p.2.year with
      | some ya, some yb =>
        if baselineNum p.1.anchor_id < baselineNum p.2.anchor_id ∧ yb ≤ ya
        then some (chronologyOrderMsg p.1 p.2)
        else none
      | _, _ => none)
  missing ++ orderErrs

/-- Modelled from the spec: the JSON-serializable values the engine's read
projections produce. -/
inductive Json where
  | str (s : String)
  | num (n : Int)
  | boolean (b : Bool)
  | null
  | arr (elems : List Json)
  | obj (fields : List (String × Json))

/-- Whether a JSON value is an array. -/
def Json.isArr : Json → Bool
  | .arr _ => true
  | _ => false

/-- Field lookup on a JSON object; none on any other JSON value. -/
def Json.getField : Json → String → Option Json
  | .obj kvs, k => kvs.lookup k
  | _, _ => none

/-- Modelled from the spec: the display value of an entity type used in
serialized records. -/
def EntityType.value : EntityType → String
  | .character => "character"
  | .place => "place"
  | .faction => "faction"
  | .item => "item"

/-- Modelled from the spec: the serialized record of one entity, using the
data model's field names. -/
def Entity.toJson (e : Entity) : Json :=
  .obj [("name", .str e.name),
    ("entity_type", .str e.entity_type.value),
    ("role", .str e.role),
    ("description", .str e.description),
    ("source", .str e.source),
    ("immutable", .boolean e.immutable)]

/-- Modelled from the spec and pinned by the tests: `to_dict` on the entity
registry returns a mapping with the single key "entities" holding the
ordered record list. -/
def EntityRegistry.to_dict (r : EntityRegistry) : Json :=
  .obj [("entities", .arr (r.entities.map Entity.toJson))]

/-- Optional integer serialization: null when absent. -/
def optIntJson : Option Int → Json
  | some n => .num n
  | none => .null

/-- Modelled from the spec: the serialized record of one anchor, using the
data model's field names. -/
def TimelineAnchor.toJson (a : TimelineAnchor) : Json :=
  .obj [("anchor_id", .str a.anchor_id),
    ("event", .str a.event),
    ("year", optIntJson a.year),
    ("offset", optIntJson a.offset),
    ("description", .str a.description),
    ("source", .str a.source),
    ("immutable", .boolean a.immutable)]

/-- Modelled from the spec and pinned by the tests: `to_dict` on the
timeline returns a mapping with the single key "anchors" holding the
ordered record list. -/
def TimelineManager.to_dict (tm : TimelineManager) : Json :=
  .obj [("anchors", .arr (tm.anchors.map TimelineAnchor.toJson))]

/-- Whether the needle list is an initial segment of the hay list. -/
def beginsWith : List Char → List Char → Bool
  | [], _ => true
  | _ :: _, [] => false
  | a :: as, b :: bs => a == b && beginsWith as bs

/-- Whether the needle list occurs contiguously inside the hay list. -/
def subSearch (needle : List Char) : List Char → Bool
  | [] => beginsWith needle []
  | c :: cs => beginsWith needle (c :: cs) || subSearch needle cs

/-- Case-sensitive substring test on strings, used by the detector after
lower-casing and by the chronology error statements. -/
def strContains (hay needle : String) : Bool :=
  subSearch needle.data hay.data

/-- Lower-casing of a string, character by character. -/
def lowerStr (s : String) : String :=
  ⟨s.data.map Char.toLower⟩

/-- Modelled from the spec: conflict severity levels. -/
inductive ConflictSeverity where
  | critical
  | major
deriving DecidableEq

/-- Modelled from the spec: recommended resolutions. -/
inductive ConflictResolution where
  | reject
  | revise
deriving DecidableEq

/-- Modelled from the spec: a detected conflict value object. -/
structure CanonConflict where
  canon_statement : String
  seed_idea : String
  severity : ConflictSeverity
  recommended_resolution : ConflictResolution
  fix_suggestion : String
  canon_source : String

/-- Modelled from the spec: one declarative opposition rule pairing a
canon-side pattern with an idea-side pattern, tagged with severity,
resolution and a fix template. -/
structure OppositionRule where
  canonPat : String
  ideaPat : String
  severity : ConflictSeverity
  resolution : ConflictResolution
  fixTemplate : String

/-- Modelled from the spec: the fixed, deterministic opposition rule table.
Absolute negations (extinction, impossibility, non-restorability,
indestructibility) are CRITICAL with resolution REJECT; the soft frequency
constraint is MAJOR with resolution REVISE. -/
def oppositionRules : List OppositionRule :=
  [⟨"extinct", "appear", .critical, .reject,
    "Remove or rework the reappearance - canon establishes extinction"⟩,
   ⟨"cannot resurrect", "resurrect", .critical, .reject,
    "Remove or rework the resurrection - canon establishes death is permanent"⟩,
   ⟨"time travel", "back in time", .critical, .reject,
    "Remove or rework the time travel - canon rules it out"⟩,
   ⟨"indestructible", "destroy", .critical, .reject,
    "Remove or rework the destruction - canon establishes indestructibility"⟩,
   ⟨"destroyed", "repair", .critical, .reject,
    "Remove or rework the repair - canon establishes the destruction is final"⟩,
   ⟨"collapsed", "restor", .critical, .reject,
    "Remove or rework the restoration - canon establishes the collapse is final"⟩,
   ⟨"hibernate", "every week", .major, .revise,
    "Align the frequency of appearances with canon"⟩]

/-- Modelled from the spec: a rule matches a canon/idea pair when both of
its patterns occur, case-insensitively, in the respective texts. -/
def ruleMatches (r : OppositionRule) (canon idea : String) : Bool :=
  strContains (lowerStr canon) r.canonPat &&
    strContains (lowerStr idea) r.ideaPat

/-- Modelled from the spec: for one canon/idea pair, the first matching
rule (if any) yields one conflict; later rules are not tested. -/
def matchPair (canon idea src : String) : Option CanonConflict :=
  (oppositionRules.find? (fun r => ruleMatches r canon idea)).map
    (fun r => ⟨canon, idea, r.severity, r.resolution, r.fixTemplate, src⟩)

/-- Modelled from the spec: the conflict report with its ordered conflicts
and the provenance label of the detection call. -/
structure ConflictReport where
  conflicts : List CanonConflict
  canon_source : String

/-- Modelled from the spec: true iff any conflict is CRITICAL. -/
def ConflictReport.has_critical_conflicts (rep : ConflictReport) : Bool :=
  rep.conflicts.any (fun c => decide (c.severity = .critical))

/-- Modelled from the spec: the summary mapping with total_conflicts,
critical_count and canon_source. -/
def ConflictReport.to_summary (rep : ConflictReport) : Json :=
  .obj [("total_conflicts", .num rep.conflicts.length),
    ("critical_count", .num
      (rep.conflicts.filter (fun c => decide (c.severity = .critical))).length),
    ("canon_source", .str rep.canon_source)]

/-- Modelled from the spec: stateless detection - outer loop over the canon
statements, inner loop over the seed ideas, at most one conflict per pair,
deterministic order. -/
def ConflictDetector.detect_conflicts (invariant_canon : List String)
    (seed_ideas : List String) (canon_source : String) : ConflictReport :=
  ⟨invariant_canon.flatMap
    (fun c => seed_ideas.filterMap (fun i => matchPair c i canon_source)),
    canon_source⟩

/-! Helper lemmas about the embedding. -/

/-- Replacing every key-match by the imported record makes the lookup find
the imported record, provided some match existed. -/
theorem find?_map_replace {α : Type} (key : α → String) (l : List α)
    (e s : α) (h : l.find? (fun x => key x == key e) = some s) :
    (l.map (fun x => if key x == key e then e else x)).find?
      (fun x => key x == key e) = some e := by
  induction l with
  | nil => simp at h
  | cons a t ih =>
    by_cases ha : (key a == key e) = true
    · simp only [List.map_cons, if_pos ha]
      exact List.find?_cons_of_pos _ (by simp)
    · simp only [List.map_cons, if_neg ha]
      rw [@List.find?_cons_of_neg _ (fun x => key x == key e) a
        (t.map (fun x => if key x == key e then e else x)) ha]
      rw [@List.find?_cons_of_neg _ (fun x => key x == key e) a t ha] at h
      exact ih h

/-- After filtering out every record satisfying a predicate, the find of
that predicate fails. -/
theorem find?_filter_out {α : Type} (p : α → Bool) (l : List α) :
    (l.filter (fun x => !(p x))).find? p = none := by
  rw [List.find?_eq_none]
  intro x hx
  have h := (List.mem_filter.mp hx).2
  simp only [Bool.not_eq_true'] at h
  simp [h]

/-- A substring of the right part of an appended character list is a
substring of the whole. -/
theorem subSearch_append_left (n : List Char) :
    ∀ xs ys : List Char, subSearch n ys = true →
      subSearch n (xs ++ ys) = true := by
  intro xs
  induction xs with
  | nil => intro ys h; simpa using h
  | cons c cs ih =>
    intro ys h
    show (beginsWith n (c :: (cs ++ ys)) || subSearch n (cs ++ ys)) = true
    rw [ih ys h]
    simp

/-- String-level corollary: containment in the right summand of an append
gives containment in the whole string. -/
theorem strContains_append_right (s t n : String)
    (h : strContains t n = true) : strContains (s ++ t) n = true := by
  unfold strContains at h ⊢
  rw [String.data_append]
  exact subSearch_append_left n.data s.data t.data h

/-- When the store holds a mutable record under the imported key and the
incoming record is immutable, one merge step overwrites and counts an
update. -/
theorem mergeStep_overwrite {α : Type} [DecidableEq α] (key : α → String)
    (imm : α → Bool) (d : Bool) (rep : MergeReport) (l : List α) (e s : α)
    (hf : l.find? (fun x => key x == key e) = some s)
    (h1 : imm s = false) (h2 : imm e = true) :
    mergeStep key imm d (rep, l) e =
      (⟨rep.added, rep.updated + 1, rep.conflicts⟩,
        l.map (fun x => if key x == key e then e else x)) := by
  unfold mergeStep
  dsimp only
  rw [hf]
  dsimp only
  rw [if_pos ⟨h1, h2⟩]

/-- When the store holds an immutable record under the imported key and
the incoming record is a differing immutable record, one merge step leaves
the store unchanged and counts a conflict. -/
theorem mergeStep_conflict {α : Type} [DecidableEq α] (key : α → String)
    (imm : α → Bool) (d : Bool) (rep : MergeReport) (l : List α) (e s : α)
    (hf : l.find? (fun x => key x == key e) = some s)
    (h1 : imm s = true) (h2 : imm e = true) (hne : ¬s = e) :
    mergeStep key imm d (rep, l) e =
      (⟨rep.added, rep.updated, rep.conflicts + 1⟩, l) := by
  unfold mergeStep
  dsimp only
  rw [hf]
  dsimp only
  have hn1 : ¬(imm s = false ∧ imm e = true) := by simp [h1]
  rw [if_neg hn1, if_pos ⟨h1, h2, hne⟩]

/-- C1.  Merge precedence: when the stored record under the imported key is
mutable and the import is immutable, merging the import overwrites the
stored record (which afterwards is the imported record, hence immutable and
carrying the imported source) and the report counts one update and no
conflict; when both records are immutable and differ, merging leaves the
store untouched and the report counts one conflict instead.  Stated for
both the EntityRegistry (keyed by name) and the TimelineManager (keyed by
anchor_id). -/
theorem merge_precedence (r : EntityRegistry) (tm : TimelineManager)
    (e s : Entity) (x t : TimelineAnchor) (d d2 : Bool)
    (hs : r.get_by_name e.name = some s)
    (ht : tm.get_anchor x.anchor_id = some t) :
    ((s.immutable = false → e.immutable = true →
        (r.merge [e] d).1 = ⟨0, 1, 0⟩ ∧
        (r.merge [e] d).2.get_by_name e.name = some e) ∧
      (s.immutable = true → e.immutable = true → ¬s = e →
        r.merge [e] d = (⟨0, 0, 1⟩, r))) ∧
    ((t.immutable = false → x.immutable = true →
        (tm.merge [x] d2).1 = ⟨0, 1, 0⟩ ∧
        (tm.merge [x] d2).2.get_anchor x.anchor_id = some x) ∧
      (t.immutable = true → x.immutable = true → ¬t = x →
        tm.merge [x] d2 = (⟨0, 0, 1⟩, tm))) := by
  have hs' : r.entities.find? (fun y => y.name == e.name) = some s := hs
  have ht' :
      tm.anchors.find? (fun y => y.anchor_id == x.anchor_id) = some t := ht
  have hre : entityMergeFold r [e] d =
      mergeStep Entity.name Entity.immutable d (⟨0, 0, 0⟩, r.entities) e :=
    rfl
  have hrx : anchorMergeFold tm [x] d2 =
      mergeStep TimelineAnchor.anchor_id TimelineAnchor.immutable d2
        (⟨0, 0, 0⟩, tm.anchors) x := rfl
  refine ⟨⟨?_, ?_⟩, ?_, ?_⟩
  · intro h1 h2
    have hstep := mergeStep_overwrite Entity.name Entity.immutable d
      ⟨0, 0, 0⟩ r.entities e s hs' h1 h2
    constructor
    · show (entityMergeFold r [e] d).1 = _
      rw [hre, hstep]
    · show ((⟨(entityMergeFold r [e] d).2⟩ : EntityRegistry)).get_by_name
        e.name = some e
      unfold EntityRegistry.get_by_name
      rw [hre, hstep]
      exact find?_map_replace Entity.name r.entities e s hs'
  · intro h1 h2 hne
    have hstep := mergeStep_conflict Entity.name Entity.immutable d
      ⟨0, 0, 0⟩ r.entities e s hs' h1 h2 hne
    unfold EntityRegistry.merge
    rw [hre, hstep]
  · intro h1 h2
    have hstep := mergeStep_overwrite TimelineAnchor.anchor_id
      TimelineAnchor.immutable d2 ⟨0, 0, 0⟩ tm.anchors x t ht' h1 h2
    constructor
    · show (anchorMergeFold tm [x] d2).1 = _
      rw [hrx, hstep]
    · show ((⟨(anchorMergeFold tm [x] d2).2⟩ : TimelineManager)).get_anchor
        x.anchor_id = some x
      unfold TimelineManager.get_anchor
      rw [hrx, hstep]
      exact find?_map_replace TimelineAnchor.anchor_id tm.anchors x t ht'
  · intro h1 h2 hne
    have hstep := mergeStep_conflict TimelineAnchor.anchor_id
      TimelineAnchor.immutable d2 ⟨0, 0, 0⟩ tm.anchors x t ht' h1 h2 hne
    unfold TimelineManager.merge
    rw [hrx, hstep]

/-- Concrete registry for the merge precedence witness, holding one mutable
Dragon entity (mirrors the repository's merge test). -/
def mergeRegW : EntityRegistry :=
  ⟨[⟨"Dragon", .character, "guardian", "Local dragon", "project-local",
    false⟩]⟩

/-- Concrete immutable imported Dragon entity for the witness. -/
def mergeImpW : Entity :=
  ⟨"Dragon", .character, "ancient guardian",
    "Canonical dragon from source material", "canon-import", true⟩

/-- Concrete timeline with an immutable T0 anchor for the witness. -/
def mergeTmW : TimelineManager :=
  ⟨[⟨"T0", "Foundation", some 0, none, "", "world-genesis", true⟩]⟩

/-- Concrete differing immutable imported T0 anchor for the witness. -/
def mergeAncW : TimelineAnchor :=
  ⟨"T0", "Kingdom founding (canonical)", some 0, none, "", "canon-import",
    true⟩

/-- Witness for C1 at concrete inputs: the immutable Dragon import over a
mutable stored Dragon overwrites and counts one update, and the differing
immutable T0 record merged over the immutable stored T0 leaves the
timeline unchanged and counts one conflict. -/
theorem merge_precedence_witness :
    ((mergeRegW.merge [mergeImpW] true).1 = ⟨0, 1, 0⟩ ∧
      (mergeRegW.merge [mergeImpW] true).2.get_by_name "Dragon" =
        some mergeImpW) ∧
    mergeTmW.merge [mergeAncW] true = (⟨0, 0, 1⟩, mergeTmW) := by
  have h := merge_precedence mergeRegW mergeTmW mergeImpW
    ⟨"Dragon", .character, "guardian", "Local dragon", "project-local",
      false⟩
    mergeAncW
    ⟨"T0", "Foundation", some 0, none, "", "world-genesis", true⟩
    true true rfl rfl
  exact ⟨h.1.1 rfl rfl, h.2.2 rfl rfl (by decide)⟩

/-- C2.  Immutability gating: on a stored immutable entity, update and
delete fail with "Cannot update immutable entity" / "Cannot delete
immutable entity" and leave the registry unchanged; on a stored mutable
entity they succeed (update returns the patched entity, delete returns
true).  The same holds for timeline anchors with the anchor messages. -/
theorem immutability_gating (r : EntityRegistry) (tm : TimelineManager)
    (nm aid : String) (et : EntityType) (p : EntityPatch) (q : AnchorPatch)
    (s : Entity) (a : TimelineAnchor)
    (hs : r.get_by_name nm = some s) (ha : tm.get_anchor aid = some a) :
    ((s.immutable = true →
        r.update nm et p =
          (.error (.valueError "Cannot update immutable entity"), r) ∧
        r.delete nm et =
          (.error (.valueError "Cannot delete immutable entity"), r)) ∧
      (s.immutable = false →
        (∃ e, (r.update nm et p).1 = .ok e) ∧
        (r.delete nm et).1 = .ok true)) ∧
    ((a.immutable = true →
        tm.update_anchor aid q =
          (.error (.valueError "Cannot update immutable anchor"), tm) ∧
        tm.delete_anchor aid =
          (.error (.valueError "Cannot delete immutable anchor"), tm)) ∧
      (a.immutable = false →
        (∃ b, (tm.update_anchor aid q).1 = .ok b) ∧
        (tm.delete_anchor aid).1 = .ok true)) := by
  refine ⟨⟨?_, ?_⟩, ?_, ?_⟩
  · intro h
    constructor
    · unfold EntityRegistry.update
      rw [hs]
      dsimp only
      rw [if_pos h]
    · unfold EntityRegistry.delete
      rw [hs]
      dsimp only
      rw [if_pos h]
  · intro h
    constructor
    · refine ⟨s.applyPatch p, ?_⟩
      unfold EntityRegistry.update
      rw [hs]
      dsimp only
      rw [if_neg (by simp [h])]
    · unfold EntityRegistry.delete
      rw [hs]
      dsimp only
      rw [if_neg (by simp [h])]
  · intro h
    constructor
    · unfold TimelineManager.update_anchor
      rw [ha]
      dsimp only
      rw [if_pos h]
    · unfold TimelineManager.delete_anchor
      rw [ha]
      dsimp only
      rw [if_pos h]
  · intro h
    constructor
    · refine ⟨a.applyPatch q, ?_⟩
      unfold TimelineManager.update_anchor
      rw [ha]
      dsimp only
      rw [if_neg (by simp [h])]
    · unfold TimelineManager.delete_anchor
      rw [ha]
      dsimp only
      rw [if_neg (by simp [h])]

/-- Concrete registry holding one immutable entity, for the gating
witness (mirrors the repository's immutable update/delete tests). -/
def gateRegW : EntityRegistry :=
  ⟨[⟨"Ancient Dragon", .character, "founder", "First dragon",
    "world-genesis", true⟩]⟩

/-- Concrete timeline holding one mutable anchor, for the gating
witness. -/
def gateTmW : TimelineManager :=
  ⟨[⟨"T1", "Peace treaty", some 250, none, "Original description",
    "world-genesis", false⟩]⟩

/-- Witness for C2 at concrete inputs: the immutable Ancient Dragon
rejects update and delete with the pinned messages and the registry is
unchanged, while the mutable T1 anchor accepts update and delete. -/
theorem immutability_gating_witness :
    (gateRegW.update "Ancient Dragon" .character
        ⟨none, some "New description", none⟩ =
      (.error (.valueError "Cannot update immutable entity"), gateRegW) ∧
      gateRegW.delete "Ancient Dragon" .character =
        (.error (.valueError "Cannot delete immutable entity"),
          gateRegW)) ∧
    ((∃ b, (gateTmW.update_anchor "T1"
        ⟨none, some 251, none, some "Updated description"⟩).1 = .ok b) ∧
      (gateTmW.delete_anchor "T1").1 = .ok true) := by
  have h := immutability_gating gateRegW gateTmW "Ancient Dragon" "T1"
    .character ⟨none, some "New description", none⟩
    ⟨none, some 251, none, some "Updated description"⟩
    ⟨"Ancient Dragon", .character, "founder", "First dragon",
      "world-genesis", true⟩
    ⟨"T1", "Peace treaty", some 250, none, "Original description",
      "world-genesis", false⟩
    rfl rfl
  exact ⟨h.1.1 rfl, h.2.2 rfl⟩

/-- C4.  Name-keyed uniqueness: creating an entity whose name is already
stored fails with "Entity already exists" whatever the other fields of the
new entity are, leaving the registry contents and count unchanged. -/
theorem create_duplicate_name (r : EntityRegistry) (e s : Entity)
    (hs : r.get_by_name e.name = some s) :
    r.create e = (.error (.valueError "Entity already exists"), r) ∧
    (r.create e).2.count = r.count := by
  have h : r.create e = (.error (.valueError "Entity already exists"), r)
      := by
    unfold EntityRegistry.create
    rw [hs]
  exact ⟨h, by rw [h]⟩

/-- Witness for C4 at concrete inputs: a second Dragon Council of a
different role and source is rejected and the registry keeps its single
entity (mirrors the repository's duplicate test). -/
theorem create_duplicate_name_witness :
    (EntityRegistry.mk [⟨"Dragon Council", .faction, "governing body",
        "Elder dragons", "world-genesis", false⟩]).create
      ⟨"Dragon Council", .faction, "different", "Different description",
        "project-local", false⟩ =
      (.error (.valueError "Entity already exists"),
        ⟨[⟨"Dragon Council", .faction, "governing body", "Elder dragons",
          "world-genesis", false⟩]⟩) ∧
    ((EntityRegistry.mk [⟨"Dragon Council", .faction, "governing body",
        "Elder dragons", "world-genesis", false⟩]).create
      ⟨"Dragon Council", .faction, "different", "Different description",
        "project-local", false⟩).2.count = 1 :=
  (create_duplicate_name
    ⟨[⟨"Dragon Council", .faction, "governing body", "Elder dragons",
      "world-genesis", false⟩]⟩
    ⟨"Dragon Council", .faction, "different", "Different description",
      "project-local", false⟩
    ⟨"Dragon Council", .faction, "governing body", "Elder dragons",
      "world-genesis", false⟩
    rfl).imp id (fun h => h)

/-- C5.  Anchor insertion validation: an anchor id matching neither the
baseline nor the extension pattern is rejected with "Invalid anchor_id
format"; a valid anchor id that is already present is rejected with
"Anchor <id> already exists"; both failures leave the timeline
unchanged. -/
theorem add_anchor_validation (tm : TimelineManager) (aid ev de so : String)
    (yr off : Option Int) (im : Bool) :
    (isValidAnchorId aid = false →
      tm.add_anchor aid ev yr off de so im =
        (.error (.valueError "Invalid anchor_id format"), tm)) ∧
    (isValidAnchorId aid = true → ∀ a, tm.get_anchor aid = some a →
      tm.add_anchor aid ev yr off de so im =
        (.error (.valueError ("Anchor " ++ aid ++ " already exists")),
          tm)) := by
  constructor
  · intro h
    unfold TimelineManager.add_anchor
    rw [if_pos h]
  · intro h a ha
    unfold TimelineManager.add_anchor
    rw [if_neg (by simp [h])]
    rw [ha]

/-- Witness for C5 at concrete inputs: "INVALID" is rejected for its
format and a second "T0" is rejected as a duplicate, with the timeline
unchanged in both cases (mirrors the repository's add_anchor tests). -/
theorem add_anchor_validation_witness :
    (TimelineManager.mk []).add_anchor "INVALID" "Test event" none none
      "" "test" false =
      (.error (.valueError "Invalid anchor_id format"),
        TimelineManager.mk []) ∧
    (TimelineManager.mk [⟨"T0", "Kingdom founding", some 0, none, "",
        "world-genesis", false⟩]).add_anchor "T0" "Different event"
      (some 100) none "" "test" false =
      (.error (.valueError "Anchor T0 already exists"),
        ⟨[⟨"T0", "Kingdom founding", some 0, none, "",
          "world-genesis", false⟩]⟩) :=
  ⟨(add_anchor_validation (TimelineManager.mk []) "INVALID" "Test event"
      "" "test" none none false).1 (by decide),
    (add_anchor_validation
      ⟨[⟨"T0", "Kingdom founding", some 0, none, "", "world-genesis",
        false⟩]⟩ "T0" "Different event" "" "test" (some 100) none
      false).2 (by decide)
      ⟨"T0", "Kingdom founding", some 0, none, "", "world-genesis", false⟩
      rfl⟩

/-- C9.  Delete of an absent name returns false without raising and leaves
the registry unchanged; delete of a present mutable entity returns true
and afterwards the name is no longer found. -/
theorem delete_absent_and_present (r : EntityRegistry) (nm : String)
    (et : EntityType) (s : Entity) :
    (r.get_by_name nm = none → r.delete nm et = (.ok false, r)) ∧
    (r.get_by_name nm = some s → s.immutable = false →
      (r.delete nm et).1 = .ok true ∧
      (r.delete nm et).2.get_by_name nm = none) := by
  constructor
  · intro h
    unfold EntityRegistry.delete
    rw [h]
  · intro hs h
    have hred : r.delete nm et =
        (.ok true, ⟨r.entities.filter (fun x => !(x.name == nm))⟩) := by
      unfold EntityRegistry.delete
      rw [hs]
      dsimp only
      rw [if_neg (by simp [h])]
    constructor
    · rw [hred]
    · rw [hred]
      exact find?_filter_out (fun x => x.name == nm) r.entities

/-- Witness for C9 at concrete inputs: deleting the absent "Ghost" returns
false and keeps the registry intact; deleting the present mutable
"Temp Entity" returns true and removes it (mirrors the repository's delete
test). -/
theorem delete_absent_and_present_witness :
    (EntityRegistry.mk [⟨"Temp Entity", .item, "temporary", "Test entity",
        "test", false⟩]).delete "Ghost" .item =
      (.ok false, ⟨[⟨"Temp Entity", .item, "temporary", "Test entity",
        "test", false⟩]⟩) ∧
    ((EntityRegistry.mk [⟨"Temp Entity", .item, "temporary", "Test entity",
        "test", false⟩]).delete "Temp Entity" .item).1 = .ok true ∧
    ((EntityRegistry.mk [⟨"Temp Entity", .item, "temporary", "Test entity",
        "test", false⟩]).delete "Temp Entity" .item).2.get_by_name
      "Temp Entity" = none := by
  have h1 := (delete_absent_and_present
    ⟨[⟨"Temp Entity", .item, "temporary", "Test entity", "test",
      false⟩]⟩ "Ghost" .item
    ⟨"Temp Entity", .item, "temporary", "Test entity", "test",
      false⟩).1 rfl
  have h2 := (delete_absent_and_present
    ⟨[⟨"Temp Entity", .item, "temporary", "Test entity", "test",
      false⟩]⟩ "Temp Entity" .item
    ⟨"Temp Entity", .item, "temporary", "Test entity", "test",
      false⟩).2 rfl rfl
  exact ⟨h1, h2⟩

/-- C3.  Chronology validation: a timeline containing a T1 anchor but no
T0 yields an error mentioning "T0" and "missing"; a timeline in which T0's
declared year is at least the year of a baseline anchor that should
chronologically follow it yields an error mentioning "T0" and "after".
The result is a list of strings; the function is total. -/
theorem chronology_validation (tm : TimelineManager) :
    ((∃ a ∈ tm.anchors, a.anchor_id = "T1") → tm.get_anchor "T0" = none →
      ∃ e ∈ tm.validate_chronology,
        strContains e "T0" = true ∧ strContains e "missing" = true) ∧
    (∀ t0 b : TimelineAnchor, ∀ y0 yb : Int,
      t0 ∈ tm.anchors → t0.anchor_id = "T0" → t0.year = some y0 →
      b ∈ tm.anchors → isBaselineId b.anchor_id = true →
      0 < baselineNum b.anchor_id → b.year = some yb → yb ≤ y0 →
      ∃ e ∈ tm.validate_chronology,
        strContains e "T0" = true ∧ strContains e "after" = true) := by
  constructor
  · intro _ h0
    refine ⟨"Baseline anchor T0 is missing", ?_, by decide, by decide⟩
    unfold TimelineManager.validate_chronology
    rw [h0]
    dsimp only
    exact List.mem_append_left _ (List.mem_singleton.mpr rfl)
  · intro t0 b y0 yb ht0 hid hy0 hb hbase hnum hyb hle
    refine ⟨chronologyOrderMsg t0 b, ?_, ?_, ?_⟩
    · unfold TimelineManager.validate_chronology
      dsimp only
      apply List.mem_append_right
      apply List.mem_filterMap.mpr
      refine ⟨(t0, b), ?_, ?_⟩
      · apply List.mem_flatMap.mpr
        refine ⟨t0, ?_, ?_⟩
        · unfold TimelineManager.get_baseline_anchors
          exact List.mem_filter.mpr ⟨ht0, by rw [hid]; decide⟩
        · apply List.mem_map.mpr
          exact ⟨b, List.mem_filter.mpr ⟨hb, hbase⟩, rfl⟩
      · dsimp only
        rw [hy0, hyb]
        dsimp only
        rw [if_pos ⟨by rw [hid]; exact hnum, hle⟩]
    · unfold chronologyOrderMsg
      rw [hid]
      exact strContains_append_right _ _ _ (by decide)
    · unfold chronologyOrderMsg
      rw [hid]
      exact strContains_append_right _ _ _ (by decide)

/-- Concrete timeline with only a T1 anchor, for the chronology witness
(mirrors the repository's missing-baseline test). -/
def chronTmMissing : TimelineManager :=
  ⟨[⟨"T1", "Peace treaty", some 250, none, "", "test", false⟩]⟩

/-- Concrete timeline in which T0's year 500 is after T1's year 250, for
the chronology witness (mirrors the repository's out-of-order test). -/
def chronTmOrder : TimelineManager :=
  ⟨[⟨"T1", "Peace treaty", some 250, none, "", "test", false⟩,
    ⟨"T0", "Foundation", some 500, none, "", "test", false⟩]⟩

/-- Witness for C3 at concrete inputs: the T1-only timeline reports an
error containing "T0" and "missing", and the out-of-order timeline
reports an error containing "T0" and "after". -/
theorem chronology_validation_witness :
    (∃ e ∈ chronTmMissing.validate_chronology,
      strContains e "T0" = true ∧ strContains e "missing" = true) ∧
    (∃ e ∈ chronTmOrder.validate_chronology,
      strContains e "T0" = true ∧ strContains e "after" = true) := by
  constructor
  · exact (chronology_validation chronTmMissing).1
      ⟨⟨"T1", "Peace treaty", some 250, none, "", "test", false⟩,
        by decide, rfl⟩ rfl
  · exact (chronology_validation chronTmOrder).2
      ⟨"T0", "Foundation", some 500, none, "", "test", false⟩
      ⟨"T1", "Peace treaty", some 250, none, "", "test", false⟩
      500 250 (by decide) rfl rfl (by decide) (by decide) (by decide)
      rfl (by decide)

/-- The invariant canon of the end-to-end detection scenario. -/
def scenarioCanon : List String :=
  ["Dragons are extinct", "Magic cannot resurrect the dead",
    "Time travel is impossible"]

/-- The seed ideas of the end-to-end detection scenario. -/
def scenarioIdeas : List String :=
  ["A dragon appears", "Hero resurrects mentor",
    "Villain travels back in time"]

/-- C6.  End-to-end detection: for every canon source label, the scenario
canon and ideas produce exactly three conflicts, each CRITICAL or MAJOR,
and the summary is a mapping with the keys total_conflicts, critical_count
and canon_source, the last one holding the supplied source label. -/
theorem detect_conflicts_end_to_end (src : String) :
    (ConflictDetector.detect_conflicts scenarioCanon scenarioIdeas
      src).conflicts.length = 3 ∧
    (∀ c ∈ (ConflictDetector.detect_conflicts scenarioCanon scenarioIdeas
        src).conflicts,
      c.severity = .critical ∨ c.severity = .major) ∧
    ((ConflictDetector.detect_conflicts scenarioCanon scenarioIdeas
      src).to_summary.getField "total_conflicts").isSome = true ∧
    ((ConflictDetector.detect_conflicts scenarioCanon scenarioIdeas
      src).to_summary.getField "critical_count").isSome = true ∧
    (ConflictDetector.detect_conflicts scenarioCanon scenarioIdeas
      src).to_summary.getField "canon_source" = some (.str src) := by
  refine ⟨rfl, ?_, rfl, rfl, rfl⟩
  intro c hc
  have hall : (ConflictDetector.detect_conflicts scenarioCanon
      scenarioIdeas src).conflicts.all
      (fun x => decide (x.severity = .critical) ||
        decide (x.severity = .major)) = true := rfl
  have hx := List.all_eq_true.mp hall c hc
  simp only [Bool.or_eq_true, decide_eq_true_eq] at hx
  exact hx

/-- C7.  Case-insensitive matching: an all-upper-case canon statement and
an all-lower-case seed idea still produce at least one conflict, for every
canon source label. -/
theorem detect_conflicts_case_insensitive (src : String) :
    0 < (ConflictDetector.detect_conflicts
      ["MAGIC CANNOT RESURRECT THE DEAD"]
      ["hero resurrects their mentor using magic"] src).conflicts.length
    := by
  have h : (ConflictDetector.detect_conflicts
      ["MAGIC CANNOT RESURRECT THE DEAD"]
      ["hero resurrects their mentor using magic"] src).conflicts.length
      = 1 := rfl
  rw [h]
  decide

/-- C8 counterexample.  At a concrete one-entity registry and a concrete
one-anchor timeline, `to_dict` does not produce a bare list of records:
the result is a JSON object (with the record list under the "entities" /
"anchors" key), exactly as the repository's serialization tests assert. -/
theorem to_dict_not_bare_list :
    (EntityRegistry.mk [⟨"Test Entity", .character, "test", "Test entity",
      "test", true⟩]).to_dict.isArr = false ∧
    (TimelineManager.mk [⟨"T0", "Foundation", some 0, none,
      "Kingdom founding", "world-genesis", true⟩]).to_dict.isArr = false ∧
    (EntityRegistry.mk [⟨"Test Entity", .character, "test", "Test entity",
      "test", true⟩]).to_dict.getField "entities" ≠ none := by
  refine ⟨rfl, rfl, ?_⟩
  intro h
  simp [EntityRegistry.to_dict, Json.getField] at h

/-- C8 amended.  `to_dict` returns a JSON object whose single "entities"
(resp. "anchors") key holds the ordered, JSON-serializable record list,
one record object per entity/anchor carrying the data model's field
names, in insertion order; as a pure projection it has no effect on the
store. -/
theorem to_dict_record_mapping (r : EntityRegistry) (tm : TimelineManager)
    (e : Entity) (a : TimelineAnchor) :
    r.to_dict.getField "entities" =
      some (.arr (r.entities.map Entity.toJson)) ∧
    tm.to_dict.getField "anchors" =
      some (.arr (tm.anchors.map TimelineAnchor.toJson)) ∧
    (r.entities.map Entity.toJson).length = r.count ∧
    (tm.anchors.map TimelineAnchor.toJson).length = tm.count ∧
    e.toJson.getField "name" = some (.str e.name) ∧
    e.toJson.getField "entity_type" = some (.str e.entity_type.value) ∧
    e.toJson.getField "role" = some (.str e.role) ∧
    e.toJson.getField "description" = some (.str e.description) ∧
    e.toJson.getField "source" = some (.str e.source) ∧
    e.toJson.getField "immutable" = some (.boolean e.immutable) ∧
    a.toJson.getField "anchor_id" = some (.str a.anchor_id) ∧
    a.toJson.getField "event" = some (.str a.event) ∧
    a.toJson.getField "year" = some (optIntJson a.year) ∧
    a.toJson.getField "offset" = some (optIntJson a.offset) ∧
    a.toJson.getField "description" = some (.str a.description) ∧
    a.toJson.getField "source" = some (.str a.source) ∧
    a.toJson.getField "immutable" = some (.boolean a.immutable) := by
  refine ⟨rfl, rfl, ?_, ?_, rfl, rfl, rfl, rfl, rfl, rfl, rfl, rfl, rfl,
    rfl, rfl, rfl, rfl⟩
  · exact List.length_map _ _
  · exact List.length_map _ _

/-- C10.  Uniform exception type: every failure the engine raises is the
single error type carrying only a message string, and the concrete failure
scenarios of the tests produce exactly the pinned message texts (empty
entity name, duplicate entity, invalid anchor id format, duplicate anchor,
update of an immutable entity). -/
theorem uniform_valueerror_surface :
    (∀ err : QFError, ∃ m, err = QFError.valueError m) ∧
    Entity.make "" .character "ruler" "Test" "test" false =
      .error (.valueError "Entity name cannot be empty") ∧
    ((EntityRegistry.mk [⟨"Dragon Council", .faction, "governing body",
        "Elder dragons", "world-genesis", false⟩]).create
      ⟨"Dragon Council", .faction, "different", "Different description",
        "project-local", false⟩).1 =
      .error (.valueError "Entity already exists") ∧
    ((TimelineManager.mk []).add_anchor "INVALID" "Test event" none none
      "" "test" false).1 =
      .error (.valueError "Invalid anchor_id format") ∧
    ((TimelineManager.mk [⟨"T0", "Kingdom founding", some 0, none, "",
        "world-genesis", false⟩]).add_anchor "T0" "Different event"
      (some 100) none "" "test" false).1 =
      .error (.valueError "Anchor T0 already exists") ∧
    ((EntityRegistry.mk [⟨"Ancient Dragon", .character, "founder",
        "First dragon", "world-genesis", true⟩]).update "Ancient Dragon"
      .character ⟨none, some "New description", none⟩).1 =
      .error (.valueError "Cannot update immutable entity") := by
  refine ⟨?_, rfl, rfl, rfl, rfl, rfl⟩
  intro err
  cases err with
  | valueError m => exact ⟨m, rfl⟩
